import Mathlib

/-!
# Verification of `m168_bike_light.c`

A shallow embedding of the control logic of the Hack-a-Day AVR tutorial
bike-light firmware (`src/m168_bike_light/m168_bike_light.c`), together
with proofs of the specified properties.

8-bit machine values (`unsigned char` and the 8-bit I/O registers) are
modelled as `Nat`, with `% 256` inserted exactly where the C code can
overflow, and one's complement `~x` on an 8-bit value modelled as
`x ^^^ 255` (the C promotion to `int` followed by the narrowing store
back to `unsigned char` has that effect on values below 256).

The hardware timer 1 is modelled by the three registers the code
touches: the compare threshold `OCR1A`, the counter `TCNT1`, and the
clock-select bits of `TCCR1B`, abstracted as the boolean
`timer1Running`.  `sleep_now` blocks until a wake event and then
returns; in the embedding it is a state transformer that records the
invocation in the `slept` flag.
-/

set_option autoImplicit false

namespace BikeLight

/-! ## Constants from the source (the `#define` block) -/

/-- State constant, `sweep = 0`. -/
def sweep : Nat := 0

/-- State constant, `xor = 1`. -/
def xor : Nat := 1

/-- State constant, `flash = 2`. -/
def flash : Nat := 2

/-- State constant, `sleep = 3`. -/
def sleep : Nat := 3

/-- Timer-1 period for sweep mode, `sweepDelay = 469` (about 30 ms). -/
def sweepDelay : Nat := 469

/-- Timer-1 period for alternate mode, `xorDelay = 3125` (about 200 ms). -/
def xorDelay : Nat := 3125

/-- Timer-1 period for flash mode, `flashDelay = 1719` (about 110 ms). -/
def flashDelay : Nat := 1719

/-- Button bit, `KEY0 = 0`: the button sits on bit 0 of port C. -/
def KEY0 : Nat := 0

/-! ## System state

The global variables of the program together with the observable
hardware registers that the claims speak about. -/

structure Sys where
  /-- Models `unsigned char state`, the state-machine variable. -/
  state : Nat
  /-- Models `volatile unsigned char timer`, the timer-tick flag. -/
  timer : Nat
  /-- Models `unsigned char tracker`, the sweep bitmask. -/
  tracker : Nat
  /-- Models `unsigned char direction`: 1 = ascending, 0 = descending. -/
  direction : Nat
  /-- Models `PORTD`, the LED output lines. -/
  ledPort : Nat
  /-- Models `OCR1A`, the timer-1 compare threshold. -/
  ocr1a : Nat
  /-- Models `TCNT1`, the timer-1 counter. -/
  tcnt1 : Nat
  /-- Models the clock-select bits `CS11 | CS10` of `TCCR1B`: true iff
  the timer-1 clock source is enabled. -/
  timer1Running : Bool
  /-- Records that `sleep_now()` has been invoked (the processor was
  parked and has been woken again by the pin-change interrupt). -/
  slept : Bool
  deriving Repr, DecidableEq

/-! ## Timer-1 primitives -/

/-- Embeds `start_timer1_compare(cycle_count)`: `OCR1A = cycle_count;
TCCR1B |= 1<<CS11 | 1<<CS10;`.  It writes the compare threshold and
enables the clock source; it touches neither `TCNT1` nor the running
state beyond enabling it. -/
def start_timer1_compare (cycle_count : Nat) (s : Sys) : Sys :=
  { s with ocr1a := cycle_count, timer1Running := true }

/-- Embeds `timer1_stop()`: clears the clock-select bits of `TCCR1B`
and resets `TCNT1` to 0. -/
def timer1_stop (s : Sys) : Sys :=
  { s with timer1Running := false, tcnt1 := 0 }

/-- Embeds `toggle_led()`: `ledPort ^= 0xFF;`. -/
def toggle_led (s : Sys) : Sys :=
  { s with ledPort := s.ledPort ^^^ 0xFF }

/-- Embeds `sleep_now()`: parks the processor in power-down sleep until
the pin-change interrupt fires, then returns.  The embedding records
the invocation. -/
def sleep_now (s : Sys) : Sys :=
  { s with slept := true }

/-- Embeds `initState(state)`, the `switch` over the four modes. -/
def initState (st : Nat) (s : Sys) : Sys :=
  match st with
  | 0 => -- case sweep
    start_timer1_compare sweepDelay { s with tracker := 0x01, direction := 1 }
  | 1 => -- case xor
    start_timer1_compare xorDelay { s with ledPort := 0x0F }
  | 2 => -- case flash
    start_timer1_compare flashDelay { s with ledPort := 0xFF }
  | 3 => -- case sleep
    { sleep_now { s with ledPort := 0x00 } with timer := 1 }
  | _ => s

/-- The successor state computed by `if (++state > sleep) state = sweep;`
(`state` is an `unsigned char`, so the increment wraps at 256). -/
def nextState (st : Nat) : Nat :=
  if (st + 1) % 256 > sleep then sweep else (st + 1) % 256

/-- The body of `if (timer) { switch (state) ... ; timer = 0; }` in
`main`'s loop: one timer-tick handling step. -/
def onTimerTick (s : Sys) : Sys :=
  let s1 :=
    match s.state with
    | 0 => -- case sweep
      let tr := if s.direction ≠ 0 then s.tracker * 2 % 256 else s.tracker / 2
      let dir := if tr = 0x01 ∨ tr = 0x80 then s.direction ^^^ 1 else s.direction
      { s with tracker := tr, direction := dir, ledPort := tr }
    | 1 => toggle_led s
    | 2 => toggle_led s
    | 3 => -- woke up from sleep: reset state machine and re-enter sweep
      initState sweep { s with state := sweep }
    | _ => s
  { s1 with timer := 0 }

/-- The body of `if (get_key_press(1<<KEY0)) { ... }` in `main`'s loop:
one debounced-button-press handling step. -/
def onButtonPress (s : Sys) : Sys :=
  let s1 := { timer1_stop s with timer := 0 }
  let st := nextState s1.state
  initState st { s1 with state := st }

/-! ## Debouncer -/

/-- One's complement of an 8-bit value.  In the C code, `~x` on an
`unsigned char` stored back into an `unsigned char` flips the low 8
bits, which for `x < 256` is `x ^^^ 255`. -/
def cpl8 (x : Nat) : Nat := x ^^^ 255

/-- State mutated by the debounce ISR: the two vertical counters, the
debounced key state, and the pending-press bitmask. -/
structure DebState where
  /-- Models `static unsigned char ct0`, one counter stage. -/
  ct0 : Nat
  /-- Models `static unsigned char ct1`, the other counter stage. -/
  ct1 : Nat
  /-- Models `unsigned char key_state`, the debounced key state
  (bit = 1 means debounced as pressed). -/
  key_state : Nat
  /-- Models `volatile unsigned char key_press`, the pending-press
  bitmask. -/
  key_press : Nat
  deriving Repr, DecidableEq

/-- The body of `ISR(TIMER0_OVF_vect)`, sampling the raw port value
`pin` (= `KEY_PIN`, active low: a pressed key reads as 0). -/
def debounceISR (pin : Nat) (s : DebState) : DebState :=
  let i0 := s.key_state ^^^ cpl8 pin          -- i = key_state ^ ~KEY_PIN
  let ct0 := cpl8 (s.ct0 &&& i0)              -- ct0 = ~( ct0 & i )
  let ct1 := ct0 ^^^ (s.ct1 &&& i0)           -- ct1 = ct0 ^ (ct1 & i)
  let i := i0 &&& ct0 &&& ct1                 -- i &= ct0 & ct1
  let ks := s.key_state ^^^ i                 -- key_state ^= i
  { ct0 := ct0, ct1 := ct1, key_state := ks,
    key_press := s.key_press ||| (ks &&& i) } -- key_press |= key_state & i

/-- Embeds `get_key_press(key_mask)`: returns the matched bits and the
new value of `key_press` (the ISR is disabled around the
read-modify-write, so the pair is computed atomically from one
snapshot). -/
def get_key_press (key_mask : Nat) (key_press : Nat) : Nat × Nat :=
  let m := key_mask &&& key_press             -- key_mask &= key_press
  (m, key_press ^^^ m)                        -- key_press ^= key_mask

/-! ## Per-bit view of the debouncer

All operations in `debounceISR` are bitwise, so each bit position
evolves independently.  `DBit` is the projection of `DebState` to one
bit position, and `bitStep` the induced step function. -/

structure DBit where
  ct0 : Bool
  ct1 : Bool
  ks : Bool
  kp : Bool
  deriving Repr, DecidableEq

/-- Projection of the debounce state to bit `k`. -/
def DebState.bit (s : DebState) (k : Nat) : DBit :=
  ⟨s.ct0.testBit k, s.ct1.testBit k, s.key_state.testBit k, s.key_press.testBit k⟩

/-- The action of `debounceISR` on one bit position; `pin` is the raw
level of that input bit (true = high = released, via the pull-up). -/
def bitStep (pin : Bool) (b : DBit) : DBit :=
  let i0 := Bool.xor b.ks (!pin)
  let c0 := !(b.ct0 && i0)
  let c1 := Bool.xor c0 (b.ct1 && i0)
  let i := i0 && c0 && c1
  let ks := Bool.xor b.ks i
  ⟨c0, c1, ks, b.kp || (ks && i)⟩

/-- The per-bit reset state of the debouncer: both counter bits are 1
(the value `~(x & 0)` resp. `ct0 ^ (x & 0)` forces after any sample on
which the raw input agrees with the debounced state), the debounced
state reads released, and no press is pending. -/
def dbReset : DBit := ⟨true, true, false, false⟩

/-! ## The sweep working state, viewed as a pair -/

/-- The update of `(tracker, direction)` performed by the `case sweep`
branch of the tick handler. -/
def sweepPairStep (p : Nat × Nat) : Nat × Nat :=
  let t := if p.2 ≠ 0 then p.1 * 2 % 256 else p.1 / 2
  (t, if t = 0x01 ∨ t = 0x80 then p.2 ^^^ 1 else p.2)

/-- All `(tracker, direction)` pairs reachable in sweep mode from the
entry state `(0x01, 1)`. -/
def sweepReach : List (Nat × Nat) :=
  [(0x01, 1), (0x02, 1), (0x04, 1), (0x08, 1), (0x10, 1), (0x20, 1), (0x40, 1),
   (0x80, 0), (0x40, 0), (0x20, 0), (0x10, 0), (0x08, 0), (0x04, 0), (0x02, 0)]

/-- Number of set bits among the low 8 bits. -/
def popCount8 (n : Nat) : Nat :=
  ((List.range 8).filter n.testBit).length

/-! ## Concrete states used to instantiate the theorems -/

/-- The machine state right after start-up (`initIO`; `state = sweep;
initState(state);`): LEDs all on, sweep entered, a first tick pending. -/
def wSys : Sys :=
  { state := 0, timer := 1, tracker := 0x01, direction := 1, ledPort := 0xFF,
    ocr1a := sweepDelay, tcnt1 := 0, timer1Running := true, slept := false }

/-- A machine state in flash mode with a mid-period timer-1 count
(`TCNT1 = 77`). -/
def flashSys : Sys :=
  { state := 2, timer := 0, tracker := 0x01, direction := 1, ledPort := 0xFF,
    ocr1a := flashDelay, tcnt1 := 77, timer1Running := true, slept := false }

/-- A debounce state with both counters at their reset value, the key
debounced as released and no pending press. -/
def dw0 : DebState :=
  { ct0 := 0xFF, ct1 := 0xFF, key_state := 0x00, key_press := 0x00 }

/-! ## Helper lemmas -/

theorem initState_state (st : Nat) (s : Sys) : (initState st s).state = s.state := by
  unfold initState
  split <;> rfl

theorem initState_tcnt1 (st : Nat) (s : Sys) : (initState st s).tcnt1 = s.tcnt1 := by
  unfold initState
  split <;> rfl

theorem onButtonPress_state (s : Sys) :
    (onButtonPress s).state = nextState s.state := by
  unfold onButtonPress
  rw [initState_state]
  rfl

theorem onButtonPress_tcnt1 (s : Sys) :
    (onButtonPress s).tcnt1 = 0 := by
  unfold onButtonPress
  rw [initState_tcnt1]
  rfl

/-- The press handler is exactly: stop timer 1, clear the tick flag,
advance the mode, then enter the new mode. -/
theorem onButtonPress_decomp (s : Sys) :
    onButtonPress s
      = initState (nextState s.state)
          { timer1_stop s with timer := 0, state := nextState s.state } := rfl

theorem onTimerTick_sweep (s : Sys) (h : s.state = 0) :
    (onTimerTick s).state = 0 ∧
    ((onTimerTick s).tracker, (onTimerTick s).direction)
      = sweepPairStep (s.tracker, s.direction) ∧
    (onTimerTick s).ledPort = (sweepPairStep (s.tracker, s.direction)).1 := by
  simp [onTimerTick, h, sweepPairStep]

theorem sweepReach_closed :
    ∀ p ∈ sweepReach, sweepPairStep p ∈ sweepReach := by decide

theorem sweepReach_popCount :
    ∀ p ∈ sweepReach, popCount8 p.1 = 1 := by decide

theorem sweepReach_flip :
    ∀ p ∈ sweepReach, (sweepPairStep p).2 ≠ p.2 →
      (sweepPairStep p).1 = 0x01 ∨ (sweepPairStep p).1 = 0x80 := by decide

/-- In sweep mode the tick handler keeps the machine in sweep mode and
keeps the `(tracker, direction)` pair inside `sweepReach`. -/
theorem sweep_reach_invariant (s : Sys) (h : s.state = 0)
    (hp : (s.tracker, s.direction) ∈ sweepReach) (n : Nat) :
    (onTimerTick^[n] s).state = 0 ∧
    ((onTimerTick^[n] s).tracker, (onTimerTick^[n] s).direction) ∈ sweepReach := by
  induction n with
  | zero => exact ⟨h, hp⟩
  | succ n ih =>
    rw [Function.iterate_succ_apply']
    obtain ⟨ih1, ih2⟩ := ih
    obtain ⟨h1, h2, -⟩ := onTimerTick_sweep _ ih1
    refine ⟨h1, ?_⟩
    rw [h2]
    exact sweepReach_closed _ ih2

/-- Per-bit correspondence: the debounce ISR acts on each of the low 8
bit positions as `bitStep`. -/
theorem bit_debounceISR (pin : Nat) (s : DebState) (k : Nat) (hk : k < 8) :
    (debounceISR pin s).bit k = bitStep (pin.testBit k) (s.bit k) := by
  have h255 : (255 : Nat).testBit k = true := by
    interval_cases k <;> decide
  simp only [debounceISR, bitStep, DebState.bit, cpl8]
  simp only [Nat.testBit_xor, Nat.testBit_and, Nat.testBit_or, h255]
  cases hpin : pin.testBit k <;>
  cases h1 : s.ct0.testBit k <;>
  cases h2 : s.ct1.testBit k <;>
  cases h3 : s.key_state.testBit k <;>
  cases h4 : s.key_press.testBit k <;> rfl

theorem bit_debounceISR_iter (pin : Nat) (s : DebState) (k : Nat) (hk : k < 8)
    (n : Nat) :
    ((debounceISR pin)^[n] s).bit k = (bitStep (pin.testBit k))^[n] (s.bit k) := by
  induction n with
  | zero => rfl
  | succ n ih =>
    rw [Function.iterate_succ_apply', Function.iterate_succ_apply',
      bit_debounceISR _ _ _ hk, ih]

/-- A per-bit state with the key debounced as pressed, both counters at
their reset value and no pending press is fixed under further pressed
samples. -/
theorem bitStep_press_fixed (n : Nat) :
    (bitStep false)^[n] (⟨true, true, true, false⟩ : DBit)
      = ⟨true, true, true, false⟩ :=
  Function.iterate_fixed (by decide) n

/-- The reset state is fixed under samples that agree with the
debounced (released) state. -/
theorem bitStep_release_fixed (n : Nat) :
    (bitStep true)^[n] dbReset = dbReset :=
  Function.iterate_fixed (by decide) n

/-! ## Claim theorems -/

/-- Claim C1: every debounced button press advances the active mode to
the next value in the cyclic order sweep → xor (alternate) → flash →
sleep (suspended) → sweep, and from any mode four presses return to
the same mode (the cycle has period 4). -/
theorem mode_cycle (s : Sys) (h : s.state < 4) :
    (onButtonPress s).state = nextState s.state ∧
    nextState sweep = xor ∧ nextState xor = flash ∧
    nextState flash = sleep ∧ nextState sleep = sweep ∧
    nextState (nextState (nextState (nextState s.state))) = s.state := by
  refine ⟨onButtonPress_state s, by decide, by decide, by decide, by decide, ?_⟩
  have h4 : s.state = 0 ∨ s.state = 1 ∨ s.state = 2 ∨ s.state = 3 := by omega
  rcases h4 with h' | h' | h' | h' <;> rw [h'] <;> decide

/-- Witness for C1 at the start-up state. -/
theorem mode_cycle_witness :
    nextState (nextState (nextState (nextState wSys.state))) = wSys.state :=
  (mode_cycle wSys (by decide)).2.2.2.2.2

/-- Claim C2: entering sweep establishes `(tracker, direction) =
(0x01, ascending)`; from there every tick-handling step keeps the
pattern at popcount 1 (it never shifts off either edge), and a step
changes the direction flag only when the post-shift pattern equals
0x01 or 0x80. -/
theorem sweep_invariant (s : Sys) (n : Nat) (h : s.state = sweep) :
    (initState sweep s).tracker = 0x01 ∧
    (initState sweep s).direction = 1 ∧
    popCount8 ((onTimerTick^[n] (initState sweep s)).tracker) = 1 ∧
    ((onTimerTick^[n + 1] (initState sweep s)).direction
        ≠ (onTimerTick^[n] (initState sweep s)).direction →
      (onTimerTick^[n + 1] (initState sweep s)).tracker = 0x01 ∨
      (onTimerTick^[n + 1] (initState sweep s)).tracker = 0x80) := by
  have he : (initState sweep s).state = 0 := by rw [initState_state]; exact h
  have hp : ((initState sweep s).tracker, (initState sweep s).direction)
      ∈ sweepReach := by
    have hpair : ((initState sweep s).tracker, (initState sweep s).direction)
        = ((1 : Nat), (1 : Nat)) := rfl
    rw [hpair]
    decide
  obtain ⟨h1, h2⟩ := sweep_reach_invariant _ he hp n
  refine ⟨rfl, rfl, ?_, ?_⟩
  · exact sweepReach_popCount _ h2
  · intro hd
    obtain ⟨-, hpair, -⟩ :=
      onTimerTick_sweep (onTimerTick^[n] (initState sweep s)) h1
    rw [Prod.mk.injEq] at hpair
    obtain ⟨ht, hdir⟩ := hpair
    rw [Function.iterate_succ_apply'] at hd ⊢
    rw [ht]
    apply sweepReach_flip _ h2
    rw [← hdir]
    exact hd

/-- Witness for C2 after five ticks from the start-up state. -/
theorem sweep_invariant_witness :
    popCount8 ((onTimerTick^[5] (initState sweep wSys)).tracker) = 1 :=
  (sweep_invariant wSys 5 rfl).2.2.1

/-- Claim C3, counterexample: `start_timer1_compare` does not reset the
underlying counter — arming from a state with `TCNT1 = 77` leaves the
stale count of 77 in place. -/
theorem start_timer1_compare_cex :
    (start_timer1_compare flashDelay flashSys).tcnt1 = 77 ∧
    ¬ (start_timer1_compare flashDelay flashSys).tcnt1 = 0 := by decide

/-- Claim C3, amended: `start_timer1_compare(period)` loads the compare
threshold and enables the clock source, leaving the counter unchanged;
the stop and the counter reset are performed by `timer1_stop`, which
the button-press path always runs before re-arming, so after every
button press the counter is zero and no stale partial period is
counted. -/
theorem arm_amended (c : Nat) (s : Sys) :
    (start_timer1_compare c s).ocr1a = c ∧
    (start_timer1_compare c s).timer1Running = true ∧
    (start_timer1_compare c s).tcnt1 = s.tcnt1 ∧
    (timer1_stop s).tcnt1 = 0 ∧
    (timer1_stop s).timer1Running = false ∧
    (onButtonPress s).tcnt1 = 0 :=
  ⟨rfl, rfl, rfl, rfl, rfl, onButtonPress_tcnt1 s⟩

/-- Claim C4: starting from the debouncer's per-bit reset state with
the key debounced as released, holding the button pressed (raw input
consistently different from the debounced state) for fewer than four
10 ms samples — two full two-sample counter windows — changes neither
the debounced state nor the pending-press bit; at the fourth sample
the debounced state toggles and exactly one press is registered (once
drained, continuing to hold never registers another); and any run of
fewer than four pressed samples followed by releases never registers a
press. -/
theorem debounce_two_windows (s : DebState) (pin : Nat)
    (hb : s.bit KEY0 = dbReset) (hpin : pin.testBit KEY0 = false) :
    (∀ m, m < 4 →
      ((debounceISR pin)^[m] s).key_state.testBit KEY0 = false ∧
      ((debounceISR pin)^[m] s).key_press.testBit KEY0 = false) ∧
    ((debounceISR pin)^[4] s).key_state.testBit KEY0 = true ∧
    ((debounceISR pin)^[4] s).key_press.testBit KEY0 = true ∧
    (∀ n, ((debounceISR pin)^[n]
        { (debounceISR pin)^[4] s with
          key_press :=
            (get_key_press (1 <<< KEY0)
              (((debounceISR pin)^[4] s).key_press)).2 }
      ).key_press.testBit KEY0 = false) ∧
    (∀ m, m < 4 → ∀ pin2, pin2.testBit KEY0 = true → ∀ n,
      ((debounceISR pin2)^[n] ((debounceISR pin)^[m] s)).key_state.testBit KEY0
        = false ∧
      ((debounceISR pin2)^[n] ((debounceISR pin)^[m] s)).key_press.testBit KEY0
        = false) := by
  have h8 : KEY0 < 8 := by decide
  have hbit : ∀ n, ((debounceISR pin)^[n] s).bit KEY0
      = (bitStep false)^[n] dbReset := by
    intro n
    rw [bit_debounceISR_iter pin s KEY0 h8 n, hb, hpin]
  refine ⟨?_, ?_, ?_, ?_, ?_⟩
  · intro m hm
    have hmc : m = 0 ∨ m = 1 ∨ m = 2 ∨ m = 3 := by omega
    rcases hmc with rfl | rfl | rfl | rfl <;>
      exact ⟨congrArg DBit.ks (hbit _), congrArg DBit.kp (hbit _)⟩
  · exact congrArg DBit.ks (hbit 4)
  · exact congrArg DBit.kp (hbit 4)
  · -- after draining the pending press, holding the key never sets it again
    intro n
    have h4 : ((debounceISR pin)^[4] s).bit KEY0 = ⟨true, true, true, true⟩ := by
      rw [hbit 4]; decide
    have hkp : ((get_key_press (1 <<< KEY0)
        (((debounceISR pin)^[4] s).key_press)).2).testBit KEY0 = false := by
      show ((((debounceISR pin)^[4] s).key_press) ^^^
        ((1 <<< KEY0) &&& (((debounceISR pin)^[4] s).key_press))).testBit KEY0
          = false
      simp only [Nat.testBit_xor, Nat.testBit_and]
      cases hx : (((debounceISR pin)^[4] s).key_press).testBit KEY0 <;> rfl
    have hD : ({ (debounceISR pin)^[4] s with
        key_press := (get_key_press (1 <<< KEY0)
          (((debounceISR pin)^[4] s).key_press)).2 } : DebState).bit KEY0
        = ⟨true, true, true, false⟩ := by
      have e : ({ (debounceISR pin)^[4] s with
          key_press := (get_key_press (1 <<< KEY0)
            (((debounceISR pin)^[4] s).key_press)).2 } : DebState).bit KEY0
          = ⟨(((debounceISR pin)^[4] s).bit KEY0).ct0,
             (((debounceISR pin)^[4] s).bit KEY0).ct1,
             (((debounceISR pin)^[4] s).bit KEY0).ks,
             ((get_key_press (1 <<< KEY0)
               (((debounceISR pin)^[4] s).key_press)).2).testBit KEY0⟩ := rfl
      rw [h4, hkp] at e
      exact e
    have hiter := bit_debounceISR_iter pin
      ({ (debounceISR pin)^[4] s with
         key_press := (get_key_press (1 <<< KEY0)
           (((debounceISR pin)^[4] s).key_press)).2 }) KEY0 h8 n
    rw [hD, hpin, bitStep_press_fixed] at hiter
    exact congrArg DBit.kp hiter
  · intro m hm pin2 hpin2 n
    have hmb : bitStep true ((bitStep false)^[m] dbReset) = dbReset ∧
        ((bitStep false)^[m] dbReset).ks = false ∧
        ((bitStep false)^[m] dbReset).kp = false := by
      have hmc : m = 0 ∨ m = 1 ∨ m = 2 ∨ m = 3 := by omega
      rcases hmc with rfl | rfl | rfl | rfl <;>
        exact ⟨by decide, by decide, by decide⟩
    match n with
    | 0 =>
      exact ⟨(congrArg DBit.ks (hbit m)).trans hmb.2.1,
             (congrArg DBit.kp (hbit m)).trans hmb.2.2⟩
    | n + 1 =>
      rw [Function.iterate_succ_apply]
      have hstep : (debounceISR pin2 ((debounceISR pin)^[m] s)).bit KEY0
          = dbReset := by
        rw [bit_debounceISR pin2 _ KEY0 h8, hpin2, hbit m, hmb.1]
      have hiter := bit_debounceISR_iter pin2
        (debounceISR pin2 ((debounceISR pin)^[m] s)) KEY0 h8 n
      rw [hstep, hpin2, bitStep_release_fixed] at hiter
      exact ⟨congrArg DBit.ks hiter, congrArg DBit.kp hiter⟩

/-- Witness for C4: pressing (raw port value 0xFE, bit 0 low) from the
reset debounce state registers the press at the fourth sample and not
before. -/
theorem debounce_two_windows_witness :
    ((debounceISR 0xFE)^[4] dw0).key_press.testBit KEY0 = true ∧
    ((debounceISR 0xFE)^[3] dw0).key_press.testBit KEY0 = false ∧
    ((debounceISR 0xFE)^[3] dw0).key_state.testBit KEY0 = false := by
  have h := debounce_two_windows dw0 0xFE (by decide) (by decide)
  exact ⟨h.2.2.1, (h.1 3 (by omega)).2, (h.1 3 (by omega)).1⟩

/-- Claim C5: `get_key_press` returns the intersection of the mask with
the pending-press bits, the bits it changes in the pending state are
exactly that intersection (which it clears), and an immediate second
call with the same mask returns zero. -/
theorem get_key_press_spec (mask kp : Nat) :
    (get_key_press mask kp).1 = mask &&& kp ∧
    kp ^^^ (get_key_press mask kp).2 = mask &&& kp ∧
    (get_key_press mask (get_key_press mask kp).2).1 = 0 := by
  refine ⟨rfl, ?_, ?_⟩
  · show kp ^^^ (kp ^^^ (mask &&& kp)) = mask &&& kp
    rw [← Nat.xor_assoc, Nat.xor_self, Nat.zero_xor]
  · show mask &&& (kp ^^^ (mask &&& kp)) = 0
    apply Nat.eq_of_testBit_eq
    intro i
    simp only [Nat.testBit_and, Nat.testBit_xor, Nat.zero_testBit]
    cases mask.testBit i <;> cases kp.testBit i <;> rfl

/-- Claim C6: a debounced button press first stops timer 1 and clears
the pending tick flag, then enters the new mode; from flash mode it
makes the mode sleep (suspended), drives the LED port to 0x00, leaves
timer 1 stopped with a zeroed counter, and invokes `sleep_now`. -/
theorem press_in_flash (s : Sys) (h : s.state = flash) :
    onButtonPress s
      = initState (nextState s.state)
          { timer1_stop s with timer := 0, state := nextState s.state } ∧
    (onButtonPress s).state = sleep ∧
    (onButtonPress s).timer1Running = false ∧
    (onButtonPress s).tcnt1 = 0 ∧
    (onButtonPress s).ledPort = 0x00 ∧
    (onButtonPress s).slept = true := by
  refine ⟨onButtonPress_decomp s, ?_, ?_, ?_, ?_, ?_⟩ <;>
    simp [onButtonPress, h, nextState, initState, timer1_stop, sleep_now,
      sweep, flash, sleep]

/-- Witness for C6 at a concrete flash-mode state. -/
theorem press_in_flash_witness :
    (onButtonPress flashSys).state = sleep ∧
    (onButtonPress flashSys).ledPort = 0x00 ∧
    (onButtonPress flashSys).slept = true := by
  have h := press_in_flash flashSys (by decide)
  exact ⟨h.2.1, h.2.2.2.2.1, h.2.2.2.2.2⟩

/-- Claim C7: entering sleep parks the processor and, once `sleep_now`
returns, synthesizes exactly one timer tick (`timer = 1`); handling
the next tick in the sleep state resets the mode to sweep and
re-enters it with pattern 0x01, direction ascending and the sweep
period armed — it never resumes the alternate or flash state. -/
theorem wake_resumes_sweep (s : Sys) (h : s.state = sleep) :
    (initState sleep s).timer = 1 ∧
    (initState sleep s).slept = true ∧
    (onTimerTick s).state = sweep ∧
    (onTimerTick s).tracker = 0x01 ∧
    (onTimerTick s).direction = 1 ∧
    (onTimerTick s).timer1Running = true ∧
    (onTimerTick s).ocr1a = sweepDelay := by
  refine ⟨rfl, rfl, ?_, ?_, ?_, ?_, ?_⟩ <;>
    simp [onTimerTick, h, initState, start_timer1_compare,
      sweep, sleep, sweepDelay]

/-- Witness for C7 at a concrete post-wake state. -/
theorem wake_resumes_sweep_witness :
    (onTimerTick { flashSys with state := 3 }).state = sweep ∧
    (onTimerTick { flashSys with state := 3 }).tracker = 0x01 := by
  have h := wake_resumes_sweep { flashSys with state := 3 } (by decide)
  exact ⟨h.2.2.1, h.2.2.2.1⟩

/-- Claim C8: from a fresh entry into sweep, three ticks display the
patterns 0x02, 0x04, 0x08 with the direction still ascending; and from
the state where the pattern has just reached 0x80 (direction already
flipped to descending), one further tick displays 0x40 with the
direction descending. -/
theorem sweep_scenarios (s : Sys) :
    (onTimerTick (initState sweep { s with state := sweep })).ledPort = 0x02 ∧
    (onTimerTick (initState sweep { s with state := sweep })).direction = 1 ∧
    (onTimerTick (onTimerTick (initState sweep
      { s with state := sweep }))).ledPort = 0x04 ∧
    (onTimerTick (onTimerTick (initState sweep
      { s with state := sweep }))).direction = 1 ∧
    (onTimerTick (onTimerTick (onTimerTick (initState sweep
      { s with state := sweep })))).ledPort = 0x08 ∧
    (onTimerTick (onTimerTick (onTimerTick (initState sweep
      { s with state := sweep })))).direction = 1 ∧
    (onTimerTick { s with state := sweep, tracker := 0x80, direction := 0 }).ledPort
      = 0x40 ∧
    (onTimerTick { s with state := sweep, tracker := 0x80, direction := 0 }).direction
      = 0 := by
  refine ⟨rfl, rfl, rfl, rfl, rfl, rfl, ?_, ?_⟩ <;> simp [onTimerTick, sweep]

/-- Claim C9: entering sweep does not write the LED port — it only
resets the working state (pattern 0x01, ascending) and arms the timer,
so the previously displayed pattern stays on the LEDs until the first
tick, and the first pattern actually displayed after entry is 0x02,
never the reset value 0x01. -/
theorem enter_sweep_frame (s : Sys) :
    (initState sweep s).ledPort = s.ledPort ∧
    (initState sweep s).tracker = 0x01 ∧
    (initState sweep s).direction = 1 ∧
    (onTimerTick (initState sweep { s with state := sweep })).ledPort = 0x02 ∧
    (onTimerTick (initState sweep { s with state := sweep })).tracker = 0x02 :=
  ⟨rfl, rfl, rfl, rfl, rfl⟩

/-- Claim C10: `get_key_press` leaves every pending-press bit outside
the requested mask unchanged. -/
theorem get_key_press_frame (mask kp i : Nat) (h : mask.testBit i = false) :
    ((get_key_press mask kp).2).testBit i = kp.testBit i := by
  show (kp ^^^ (mask &&& kp)).testBit i = kp.testBit i
  simp [Nat.testBit_xor, Nat.testBit_and, h]

/-- Witness for C10: bit 1 of the pending state survives a drain with
mask 1. -/
theorem get_key_press_frame_witness :
    (1 : Nat).testBit 1 = false ∧
    ((get_key_press 1 3).2).testBit 1 = (3 : Nat).testBit 1 :=
  ⟨by decide, get_key_press_frame 1 3 1 (by decide)⟩

end BikeLight
